import Mathlib

/-!
# Verification of the realtime relay (`communication_handler.py`, `gs.py`)

A shallow embedding of the repository's event-relay logic:

* `gs.py` — `SearchResults.google_search`: validates the query, delegates to
  the external `googlesearch.search` library, wraps failures.
* `communication_handler.py` — `CommunicationHandler`: session start
  (configuration message, conversation id, greeting, initial response
  request) and the receive loop `receive_messages_async`, which dispatches
  decoded server events: speech-start interruption (`stop_audio_async`),
  audio forwarding (`receive_audio`), and tool dispatch
  (`get_result` / `send_result` / `transfer_to_agent`).

Python exceptions are modelled with an explicit error type threaded through
`Except` / `Option`; a handler step returns the messages it managed to send
before an uncaught exception together with that exception, mirroring that
sends performed before a raise are not retracted.  External collaborators
(the search library, the SMS client, the user websocket) are parameters of
an environment record.  Logging and stdout printing are diagnostics with no
effect on program state and are not modelled.
-/

/-- Python exception values relevant to the embedded code paths. -/
inductive PyErr where
  /-- `TypeError`, e.g. subscripting a `str` with a `str` key. -/
  | typeError
  /-- `IndexError` from `list[i]` out of range. -/
  | indexError
  /-- `KeyError` from `dict[k]` with a missing key. -/
  | keyError (key : String)
  /-- `ValueError` raised by input validation in `gs.py`. -/
  | valueError (msg : String)
  /-- an exception raised by the user-transport `send_text`. -/
  | transportError (msg : String)
  /-- an exception raised by an external provider (search library, SMS client). -/
  | providerError (msg : String)
  deriving DecidableEq, Repr

/-- The `str(e)` rendering Python would interpolate into wrapper messages. -/
def PyErr.str : PyErr → String
  | .typeError => "string indices must be integers"
  | .indexError => "list index out of range"
  | .keyError k => k
  | .valueError m => m
  | .transportError m => m
  | .providerError m => m

/-- Python `xs[i]` on a list: the element, or `IndexError` when out of range. -/
def pyListGetItem (xs : List String) (i : Nat) : Except PyErr String :=
  match xs.get? i with
  | some x => .ok x
  | none => .error .indexError

/-- Python `s[key]` where `s : str` and `key : str`: always raises
`TypeError: string indices must be integers`.  This is the operation
performed at `communication_handler.py:247` (`first_result_response["url"]`)
on an element of the `List[str]` returned by `gs.SearchResults.google_search`. -/
def pyStrGetItem (_s : String) (_key : String) : Except PyErr String :=
  .error .typeError

/-- A parsed JSON object of string fields, the shape of the tool-call
`arguments` payload after `json.loads`. -/
def PyDict : Type := List (String × String)

/-- Python `d[key]` on a string dict: the value, or `KeyError`. -/
def pyDictGetItem (d : PyDict) (key : String) : Except PyErr String :=
  match (d : List (String × String)).find? (fun kv => kv.1 = key) with
  | some kv => .ok kv.2
  | none => .error (.keyError key)

/-- Python truthiness of a `str`: falsy exactly when empty
(the `if not first_result_response:` test at `communication_handler.py:234`). -/
def pyFalsy (s : String) : Bool := s = ""

/-- `gs.py` `SearchResults.google_search(query, num_results)`: rejects an
empty query and a non-positive count with `ValueError`, otherwise calls the
external search library and wraps any failure in
`Exception("Error during Google search: " + str(e))`.  `searchLib` stands
for `googlesearch.search`, which yields an ordered list of URL strings. -/
def google_search (searchLib : String → Except PyErr (List String))
    (query : String) (num_results : Nat) : Except PyErr (List String) :=
  if query = "" then
    .error (.valueError "Query must be a non-empty string")
  else if num_results < 1 then
    .error (.valueError "num_results must be a positive integer")
  else
    match searchLib query with
    | .ok rs => .ok rs
    | .error e => .error (.providerError ("Error during Google search: " ++ PyErr.str e))

/-- The external collaborators of one relay session. -/
structure Env where
  /-- the external `googlesearch.search` library call, by query. -/
  searchLib : String → Except PyErr (List String)
  /-- `SmsClient.send` given the full message body: per-recipient success
  flags, or a raised provider exception. -/
  smsSend : String → Except PyErr (List Bool)
  /-- whether `active_websocket.client_state == WebSocketState.CONNECTED`. -/
  wsConnected : Bool
  /-- whether `active_websocket.send_text` raises when attempted. -/
  userSendFails : Bool

/-- An outbound frame to the user transport, the dict serialized by
`json.dumps` before `send_text`.  `stopAudio` is
`\x7bKind: "StopAudio", AudioData: null, StopAudio: \x7b\x7d\x7d` built in
`stop_audio_async`; `audioData d` is
`\x7bKind: "AudioData", AudioData: \x7bData: d\x7d, StopAudio: null\x7d` built in
`receive_audio`. -/
inductive Frame where
  | stopAudio
  | audioData (data : String)
  deriving DecidableEq, Repr

/-- A message sent into the session stream (`rt_client`).  `sessionUpdate`
stands for the fixed configuration message `session_update_message` (its
content is modelled separately as JSON below); the remaining constructors
carry the varying fields of the dicts built in the source. -/
inductive SessionMsg where
  /-- the `session.update` configuration message of `start_conversation_async`. -/
  | sessionUpdate
  /-- `ItemCreateMessage` carrying the greeting text, tagged with a call id. -/
  | itemCreate (call_id : String) (text : String)
  /-- the bare `ResponseCreateMessage()` sent at session start. -/
  | responseCreateInitial
  /-- a `conversation.item.create` with a `function_call_output` item. -/
  | functionCallOutput (call_id : String) (output : String)
  /-- a `response.create` with modalities and instructions. -/
  | responseCreate (modalities : List String) (instructions : String)
  deriving DecidableEq, Repr

/-- Observable state of one handler: everything sent so far on each channel. -/
structure HState where
  /-- frames sent to the user websocket, oldest first. -/
  userFrames : List Frame
  /-- messages sent into the session stream, oldest first. -/
  sessionMsgs : List SessionMsg
  deriving DecidableEq, Repr

/-- The state of a fresh handler: nothing sent yet. -/
def initState : HState := ⟨[], []⟩

/-- `send_message_async`: sends only when the user websocket is in the
`CONNECTED` state; an exception from `send_text` is logged and re-raised. -/
def send_message_async (env : Env) (s : HState) (f : Frame) : HState × Option PyErr :=
  if env.wsConnected then
    if env.userSendFails then
      (s, some (.transportError "send_text failed"))
    else
      ({ s with userFrames := s.userFrames ++ [f] }, none)
  else
    (s, none)

/-- `stop_audio_async`: builds the `StopAudio` frame and sends it; an
exception is logged and re-raised. -/
def stop_audio_async (env : Env) (s : HState) : HState × Option PyErr :=
  send_message_async env s Frame.stopAudio

/-- `receive_audio`: builds the `AudioData` frame and sends it; the
surrounding `try`/`except` swallows every exception (it only prints). -/
def receive_audio (env : Env) (s : HState) (data_payload : String) : HState × Option PyErr :=
  ((send_message_async env s (Frame.audioData data_payload)).1, none)

/-- `send_sms`: builds the fixed SMS body around the url and calls the SMS
client; per-recipient outcomes are only logged; any exception is logged and
re-raised to the caller. -/
def send_sms (env : Env) (message : String) : Option PyErr :=
  match env.smsSend
      ("Hello from RecipeFinder! Here\x27s the recipe you requested:\n\n" ++ message) with
  | .ok _ => none
  | .error e => some e

/-- The text of the no-result function-call output (`communication_handler.py:240`). -/
def no_result_output : String := "I couldn\x27t find a result for you."

/-- The text of the generic search-failure apology (`communication_handler.py:279`). -/
def search_error_output : String :=
  "Sorry, I encountered an error while searching for the topic."

/-- Body of the `try` block of the `get_result` branch
(`communication_handler.py:228-271`): returns the session messages sent
before control left the block, and the uncaught exception if one was raised.
Steps, in source order: `args["query"]`; `google_search(query, 5)`;
`search_finder_response[0]`; the falsiness check sending the no-result
output; `first_result_response["url"]` (a `str` subscripted by a `str`);
on success the link output followed by the `response.create` request. -/
def getResultTry (env : Env) (call_id : String) (args : PyDict) :
    List SessionMsg × Option PyErr :=
  match pyDictGetItem args "query" with
  | .error e => ([], some e)
  | .ok query =>
    match google_search env.searchLib query 5 with
    | .error e => ([], some e)
    | .ok search_finder_response =>
      match pyListGetItem search_finder_response 0 with
      | .error e => ([], some e)
      | .ok first_result_response =>
        if pyFalsy first_result_response then
          ([SessionMsg.functionCallOutput call_id no_result_output], none)
        else
          match pyStrGetItem first_result_response "url" with
          | .error e => ([], some e)
          | .ok url =>
            ([SessionMsg.functionCallOutput call_id ("Here is a link for you: " ++ url),
              SessionMsg.responseCreate ["text", "audio"]
                ("Respond to the user that you found named Here is a link for you: "
                  ++ url ++ ". Be concise and friendly.")], none)

/-- The `get_result` branch with its `except` clause: any exception from the
`try` body is caught and answered with the generic apology output, after the
messages already sent. -/
def getResultMsgs (env : Env) (call_id : String) (args : PyDict) : List SessionMsg :=
  match getResultTry env call_id args with
  | (msgs, none) => msgs
  | (msgs, some _) => msgs ++ [SessionMsg.functionCallOutput call_id search_error_output]

/-- One decoded server event, the tagged union matched on in
`receive_messages_async`.  `unknown` is every type string reaching the
wildcard arm of the `match`. -/
inductive Event where
  | sessionCreated
  | errorEvent
  | bufferCleared
  | speechStarted
  | speechStopped
  | transcriptCompleted
  | transcriptFailed
  | responseDone
  | audioTranscriptDone
  | audioDelta (delta : String)
  | functionCall (call_id : String)
  | functionCallArgsDone (name : String) (call_id : String) (args : PyDict)
  | unknown

/-- Dispatch of one event, the `match message.type` body of
`receive_messages_async`: returns the updated observable state and the
exception, if any, escaping this iteration (which the loop-level `except`
re-raises, ending the loop).  Print/log-only arms, including the wildcard,
change nothing.  For `function_call_arguments.done`: `get_result` catches
all its exceptions internally; `send_result` reads `args["url"]` and calls
`send_sms`, both outside any local `try`; `transfer_to_agent` and any other
name fall through the `elif` chain doing nothing. -/
def handleEvent (env : Env) (s : HState) : Event → HState × Option PyErr
  | .speechStarted => stop_audio_async env s
  | .audioDelta delta => receive_audio env s delta
  | .functionCallArgsDone name call_id args =>
    if name = "get_result" then
      ({ s with sessionMsgs := s.sessionMsgs ++ getResultMsgs env call_id args }, none)
    else if name = "send_result" then
      match pyDictGetItem args "url" with
      | .error e => (s, some e)
      | .ok url =>
        match send_sms env url with
        | none => (s, none)
        | some e => (s, some e)
    else
      (s, none)
  | _ => (s, none)

/-- The receive loop over a finite event trace: events are dispatched in
order; an exception escaping one dispatch is logged by the loop-level
`except` and re-raised, terminating the loop (no later event is processed). -/
def runLoop (env : Env) : HState → List Event → HState
  | s, [] => s
  | s, e :: rest =>
    match handleEvent env s e with
    | (s2, none) => runLoop env s2 rest
    | (s2, some _) => s2

/-- The greeting instruction text of the initial conversation item
(`communication_handler.py:145`). -/
def greeting_text : String :=
  "You are having a conversation with a user. Greet the user with a quick cheery message asking how you can help them find results on their search query."

/-- The messages `start_conversation_async` sends into the session stream
after connecting, in order: the configuration message, the greeting item
tagged with the freshly generated conversation id (`str(uuid.uuid4())`,
passed in here since it is random), and the bare response-creation request.
-/
def start_conversation_msgs (conversation_call_id : String) : List SessionMsg :=
  [SessionMsg.sessionUpdate,
   SessionMsg.itemCreate conversation_call_id greeting_text,
   SessionMsg.responseCreateInitial]

/-- JSON values, the shape of the Python dict literals sent as messages. -/
inductive Json where
  | str (s : String)
  | num (q : Rat)
  | bool (b : Bool)
  | null
  | arr (elems : List Json)
  | obj (fields : List (String × Json))

/-- Field lookup in a JSON object, first match wins; `none` on non-objects. -/
def Json.getField : Json → String → Option Json
  | .obj fields, key => go fields key
  | _, _ => none
where
  /-- first-match association lookup over the field list. -/
  go : List (String × Json) → String → Option Json
    | [], _ => none
    | (k, v) :: rest, key => if k = key then some v else go rest key

/-- The string carried by a JSON string value. -/
def Json.getStr : Json → Option String
  | .str s => some s
  | _ => none

/-- The number carried by a JSON numeric value. -/
def Json.getNum : Json → Option Rat
  | .num q => some q
  | _ => none

/-- The `system_prompt` class attribute of `CommunicationHandler`
(`communication_handler.py:54-74`), byte for byte. -/
def system_prompt : String :=
  "\n        You are Search Assistant, an AI expert in finding results from google. Your role is to:\n\n        - Help users discover results based on their search query\n        - Guide the conversation in a warm, friendly, and concise manner\n        - Ask focused questions about:\n          * what topic they want to search\n\n        \n        Conversation Flow:\n        1. Start with a brief, welcoming greeting\n        2. Ask about search topics\n\n\n        Guidelines:\n        - Keep responses brief and focused\n        - When sharing a search result, only search from google.com\n        "

/-- The first entry of the `functions` tool schema
(`communication_handler.py:94-108`). -/
def get_result_decl : Json :=
  .obj [("type", .str "function"),
        ("name", .str "get_result"),
        ("description", .str "Get results based on the search query."),
        ("parameters", .obj
          [("type", .str "object"),
           ("properties", .obj
             [("query", .obj
               [("type", .str "string"),
                ("description", .str "The topic the user is interested in.")])]),
           ("required", .arr [.str "query"])])]

/-- The second entry of the `functions` tool schema
(`communication_handler.py:109-118`). -/
def send_result_decl : Json :=
  .obj [("type", .str "function"),
        ("name", .str "send_result"),
        ("description", .str "Send a link to the search results."),
        ("parameters", .obj
          [("type", .str "object"),
           ("properties", .obj [("url", .obj [("type", .str "string")])]),
           ("required", .arr [.str "url"])])]

/-- The complete `functions` list registered in the session configuration
(`communication_handler.py:93-119`). -/
def functions : List Json := [get_result_decl, send_result_decl]

/-- The `session_update_message` dict built in `start_conversation_async`
(`communication_handler.py:121-136`). -/
def session_update_message : Json :=
  .obj [("type", .str "session.update"),
        ("session", .obj
          [("voice", .str "alloy"),
           ("instructions", .str system_prompt),
           ("input_audio_format", .str "pcm16"),
           ("input_audio_transcription", .obj [("model", .str "whisper-1")]),
           ("turn_detection", .obj
             [("threshold", .num 0.6),
              ("silence_duration_ms", .num 300),
              ("prefix_padding_ms", .num 200),
              ("type", .str "server_vad")]),
           ("tools", .arr functions)])]

/-- The configuration options a reader recovers from a parsed configuration
message: voice, persona instructions, audio format, and the turn-detection
parameters. -/
structure ParsedConfig where
  voice : String
  instructions : String
  input_audio_format : String
  td_type : String
  threshold : Rat
  silence_duration_ms : Rat
  prefix_padding_ms : Rat
  deriving DecidableEq, Repr

/-- Parse a configuration message back into its documented options, reading
each field from the JSON object structure. -/
def parseSessionConfig (j : Json) : Option ParsedConfig := do
  let session ← j.getField "session"
  let voice ← (← session.getField "voice").getStr
  let instructions ← (← session.getField "instructions").getStr
  let fmt ← (← session.getField "input_audio_format").getStr
  let td ← session.getField "turn_detection"
  let tdType ← (← td.getField "type").getStr
  let threshold ← (← td.getField "threshold").getNum
  let silence ← (← td.getField "silence_duration_ms").getNum
  let prefixPad ← (← td.getField "prefix_padding_ms").getNum
  pure ⟨voice, instructions, fmt, tdType, threshold, silence, prefixPad⟩

/-- An environment whose search library finds one URL and whose other
collaborators behave: SMS delivery succeeds, the user websocket is
connected, sends do not fail. -/
def okSearchEnv : Env :=
  ⟨fun _ => .ok ["https://example.com/a"], fun _ => .ok [true], true, false⟩

/-- Same as `okSearchEnv` but the search library returns zero results. -/
def emptySearchEnv : Env :=
  ⟨fun _ => .ok [], fun _ => .ok [true], true, false⟩

/-- Same as `okSearchEnv` but the search library raises. -/
def errSearchEnv : Env :=
  ⟨fun _ => .error (.providerError "boom"), fun _ => .ok [true], true, false⟩

/-- Same as `okSearchEnv` but the SMS client raises on send. -/
def smsFailEnv : Env :=
  ⟨fun _ => .ok ["https://example.com/a"], fun _ => .error (.providerError "sms down"),
   true, false⟩

/-- Same as `okSearchEnv` but the user websocket is not connected. -/
def disconnectedEnv : Env :=
  ⟨fun _ => .ok ["https://example.com/a"], fun _ => .ok [true], false, false⟩

/-- Same as `okSearchEnv` but `send_text` on the user websocket raises. -/
def sendFailEnv : Env :=
  ⟨fun _ => .ok ["https://example.com/a"], fun _ => .ok [true], true, true⟩

/-- Whether a session message is a `response.create` request. -/
def SessionMsg.isResponseCreate : SessionMsg → Bool
  | .responseCreate _ _ => true
  | _ => false

/-- The `try` body of the `get_result` branch can never send a
`response.create` request: reaching that send requires
`first_result_response["url"]` to succeed, but subscripting a `str` result
with a `str` key always raises `TypeError`. -/
theorem getResultTry_no_responseCreate (env : Env) (c : String) (args : PyDict)
    (ms : List String) (instr : String)
    (h : SessionMsg.responseCreate ms instr ∈ (getResultTry env c args).1) : False := by
  unfold getResultTry at h
  repeat' split at h
  all_goals simp_all [pyStrGetItem]

/-- The full `get_result` branch never emits a `response.create` request. -/
theorem getResultMsgs_no_responseCreate (env : Env) (c : String) (args : PyDict) :
    (getResultMsgs env c args).filter SessionMsg.isResponseCreate = [] := by
  unfold getResultMsgs
  split
  next msgs heq =>
    rw [List.filter_eq_nil_iff]
    intro m hm
    cases m with
    | responseCreate ms instr =>
      exact (getResultTry_no_responseCreate env c args ms instr (by rw [heq]; exact hm)).elim
    | _ => simp [SessionMsg.isResponseCreate]
  next msgs e heq =>
    rw [List.filter_eq_nil_iff]
    intro m hm
    rcases List.mem_append.mp hm with h1 | h1
    · cases m with
      | responseCreate ms instr =>
        exact (getResultTry_no_responseCreate env c args ms instr (by rw [heq]; exact h1)).elim
      | _ => simp [SessionMsg.isResponseCreate]
    · simp only [List.mem_singleton] at h1
      subst h1
      simp [SessionMsg.isResponseCreate]

/-- Claim C1 (code bug): at a query for which the search library returns the
non-empty URL list `["https://example.com/a"]`, the handler does not emit
the link output and response-creation request the claim describes; it emits
the generic apology output, because `first_result_response["url"]` subscripts
a `str` element of the `List[str]` search result and raises `TypeError`,
landing in the `except` clause.  Moreover no input whatsoever can make the
`get_result` branch emit a `response.create` request: the success path is
unreachable. -/
theorem C1_success_path_unreachable :
    getResultMsgs okSearchEnv "call-1" [("query", "capital of france")] =
      [SessionMsg.functionCallOutput "call-1" search_error_output] ∧
    ∀ (env : Env) (c : String) (args : PyDict),
      (getResultMsgs env c args).filter SessionMsg.isResponseCreate = [] :=
  ⟨rfl, fun env c args => getResultMsgs_no_responseCreate env c args⟩

/-- Claim C2 (code bug): at a query for which the search library returns
zero results, the handler does not send the documented no-result message
`"I couldn't find a result for you."`; `search_finder_response[0]` raises
`IndexError` on the empty list before the falsiness check that guards the
no-result output, so the `except` clause sends the generic apology instead.
No response-creation request is issued, as the claim says. -/
theorem C2_empty_result_apology :
    getResultMsgs emptySearchEnv "call-2" [("query", "anything")] =
      [SessionMsg.functionCallOutput "call-2" search_error_output] ∧
    SessionMsg.functionCallOutput "call-2" no_result_output ∉
      getResultMsgs emptySearchEnv "call-2" [("query", "anything")] :=
  ⟨rfl, by decide⟩

/-- Claim C3 counterexample: with an SMS client that raises, a
`send_result` call event followed by a `speech-started` event leaves the
state unchanged — the `speech-started` event was never dispatched (no
`StopAudio` frame), although dispatching it alone does emit the frame.  The
exception re-raised by `send_sms` escapes the receive loop. -/
theorem C3_counterexample :
    runLoop smsFailEnv initState
        [Event.functionCallArgsDone "send_result" "call-3" [("url", "https://x/y")],
         Event.speechStarted] = initState ∧
    runLoop smsFailEnv initState [Event.speechStarted] =
      ⟨[Frame.stopAudio], []⟩ :=
  ⟨rfl, rfl⟩

/-- Claim C3 (amended): an SMS provider failure during `send_result`
dispatch is re-raised out of `send_sms`, escapes the event dispatch
uncaught, and terminates the receive loop: no subsequent event of the trace
is dispatched. -/
theorem C3_sms_failure_terminates_loop (env : Env) (s : HState) (c url : String)
    (args : PyDict) (e : PyErr) (rest : List Event)
    (hurl : pyDictGetItem args "url" = .ok url)
    (hsms : send_sms env url = some e) :
    handleEvent env s (.functionCallArgsDone "send_result" c args) = (s, some e) ∧
    runLoop env s (.functionCallArgsDone "send_result" c args :: rest) = s := by
  have h1 : handleEvent env s (.functionCallArgsDone "send_result" c args) = (s, some e) := by
    simp [handleEvent, hurl, hsms]
  exact ⟨h1, by simp [runLoop, h1]⟩

/-- Concrete instance of `C3_sms_failure_terminates_loop`. -/
theorem C3_sms_failure_terminates_loop_witness :
    handleEvent smsFailEnv initState
        (.functionCallArgsDone "send_result" "call-3" [("url", "https://x/y")]) =
      (initState, some (.providerError "sms down")) ∧
    runLoop smsFailEnv initState
        (Event.functionCallArgsDone "send_result" "call-3" [("url", "https://x/y")]
          :: [Event.speechStarted]) = initState :=
  C3_sms_failure_terminates_loop smsFailEnv initState "call-3" "https://x/y"
    [("url", "https://x/y")] (.providerError "sms down") [Event.speechStarted] rfl rfl

/-- Claim C4 counterexample: two consecutive `speech-started` events with no
intervening stop produce two `StopAudio` frames, not one — the handler keeps
no turn state and `stop_audio_async` fires once per event. -/
theorem C4_counterexample :
    (runLoop okSearchEnv initState [Event.speechStarted, Event.speechStarted]).userFrames =
      [Frame.stopAudio, Frame.stopAudio] :=
  rfl

/-- Claim C4 (amended): with the user websocket connected and its send
operation healthy, every `speech-started` event causes exactly one
`StopAudio` frame — `n` consecutive `speech-started` events produce exactly
`n` frames, one per event, including consecutive events with no intervening
stop. -/
theorem C4_one_stop_frame_per_speech_start (env : Env) (s : HState) (n : Nat)
    (hc : env.wsConnected = true) (hf : env.userSendFails = false) :
    (runLoop env s (List.replicate n Event.speechStarted)).userFrames =
      s.userFrames ++ List.replicate n Frame.stopAudio := by
  induction n generalizing s with
  | zero => simp [runLoop]
  | succ n ih =>
    have hstep : handleEvent env s .speechStarted =
        ({ s with userFrames := s.userFrames ++ [Frame.stopAudio] }, none) := by
      simp [handleEvent, stop_audio_async, send_message_async, hc, hf]
    rw [List.replicate_succ]
    simp only [runLoop, hstep]
    rw [ih]
    simp [List.replicate_succ]

/-- Concrete instance of `C4_one_stop_frame_per_speech_start` at two
consecutive events. -/
theorem C4_one_stop_frame_per_speech_start_witness :
    (runLoop okSearchEnv initState (List.replicate 2 Event.speechStarted)).userFrames =
      initState.userFrames ++ List.replicate 2 Frame.stopAudio :=
  C4_one_stop_frame_per_speech_start okSearchEnv initState 2 rfl rfl

/-- Claim C5: when the search library raises for the (non-empty) query of a
`get_result` call event, the handler sends exactly one function-call-output
for the event's call identifier carrying the exact apology text, and issues
no response-creation request; the event raises nothing out of dispatch. -/
theorem C5_provider_error_apology (env : Env) (s : HState) (c q : String)
    (args : PyDict) (e : PyErr)
    (hq : pyDictGetItem args "query" = .ok q)
    (hq0 : ¬ q = "")
    (hs : env.searchLib q = .error e) :
    handleEvent env s (.functionCallArgsDone "get_result" c args) =
      ({ s with sessionMsgs := s.sessionMsgs ++
          [SessionMsg.functionCallOutput c search_error_output] }, none) := by
  simp [handleEvent, getResultMsgs, getResultTry, google_search, hq, hq0, hs]

/-- Concrete instance of `C5_provider_error_apology`. -/
theorem C5_provider_error_apology_witness :
    handleEvent errSearchEnv initState
        (.functionCallArgsDone "get_result" "call-5" [("query", "capital of france")]) =
      ({ initState with sessionMsgs := initState.sessionMsgs ++
          [SessionMsg.functionCallOutput "call-5" search_error_output] }, none) :=
  C5_provider_error_apology errSearchEnv initState "call-5" "capital of france"
    [("query", "capital of france")] (.providerError "boom") rfl (by decide) rfl

/-- Every function-call-output the `try` body of the `get_result` branch
sends carries the call identifier of the triggering event. -/
theorem getResultTry_output_call_id (env : Env) (c : String) (args : PyDict)
    (cOut out : String)
    (h : SessionMsg.functionCallOutput cOut out ∈ (getResultTry env c args).1) :
    cOut = c := by
  unfold getResultTry at h
  repeat' split at h
  all_goals simp_all

/-- Every function-call-output the full `get_result` branch sends carries
the call identifier of the triggering event. -/
theorem getResultMsgs_output_call_id (env : Env) (c : String) (args : PyDict)
    (cOut out : String)
    (h : SessionMsg.functionCallOutput cOut out ∈ getResultMsgs env c args) :
    cOut = c := by
  unfold getResultMsgs at h
  split at h
  next msgs heq =>
    exact getResultTry_output_call_id env c args cOut out (by rw [heq]; exact h)
  next msgs e heq =>
    rcases List.mem_append.mp h with h1 | h1
    · exact getResultTry_output_call_id env c args cOut out (by rw [heq]; exact h1)
    · simp only [List.mem_singleton] at h1
      injection h1

/-- Claim C6 counterexample: a session whose conversation identifier is the
fresh UUID string below tags its greeting item with that identifier, yet the
function-call-output produced for a `get_result` event with call identifier
`"call-123"` carries `"call-123"`, which is not the conversation identifier
— so not every content item sent into the session carries the conversation
identifier. -/
theorem C6_counterexample :
    start_conversation_msgs "11111111-2222-4333-8444-555555555555" =
      [SessionMsg.sessionUpdate,
       SessionMsg.itemCreate "11111111-2222-4333-8444-555555555555" greeting_text,
       SessionMsg.responseCreateInitial] ∧
    getResultMsgs errSearchEnv "call-123" [("query", "q")] =
      [SessionMsg.functionCallOutput "call-123" search_error_output] ∧
    "call-123" ≠ "11111111-2222-4333-8444-555555555555" :=
  ⟨rfl, rfl, by decide⟩

/-- Claim C6 (amended): session start generates one conversation identifier
and tags the initial greeting item with it, but function-call-output items
are not tagged with the conversation identifier: each carries the call
identifier of the function-call event it answers. -/
theorem C6_conversation_id_scope (convId : String) (env : Env)
    (c cOut out : String) (args : PyDict)
    (hmem : SessionMsg.functionCallOutput cOut out ∈ getResultMsgs env c args) :
    start_conversation_msgs convId =
      [SessionMsg.sessionUpdate, SessionMsg.itemCreate convId greeting_text,
       SessionMsg.responseCreateInitial] ∧ cOut = c :=
  ⟨rfl, getResultMsgs_output_call_id env c args cOut out hmem⟩

/-- Concrete instance of `C6_conversation_id_scope`. -/
theorem C6_conversation_id_scope_witness :
    start_conversation_msgs "11111111-2222-4333-8444-555555555555" =
      [SessionMsg.sessionUpdate,
       SessionMsg.itemCreate "11111111-2222-4333-8444-555555555555" greeting_text,
       SessionMsg.responseCreateInitial] ∧ "call-123" = "call-123" :=
  C6_conversation_id_scope "11111111-2222-4333-8444-555555555555" errSearchEnv
    "call-123" "call-123" search_error_output [("query", "q")] (by decide)

/-- Claim C7 counterexample: the tool schema sent in the session
configuration declares exactly two functions, named `get_result` and
`send_result`; no entry named `transfer_to_agent` is declared. -/
theorem C7_counterexample :
    functions.length = 2 ∧
    functions.map (fun j => Json.getField j "name") =
      [some (Json.str "get_result"), some (Json.str "send_result")] :=
  ⟨rfl, rfl⟩

/-- Claim C7 (amended): the schema declares exactly the two externally
callable functions `get_result` and `send_result` — `transfer_to_agent` is
not declared in it — while dispatching a function-call-arguments-done event
named `transfer_to_agent` is a no-op: no output item, no response-creation,
no state change, no exception. -/
theorem C7_schema_and_noop_dispatch (env : Env) (s : HState) (c : String)
    (args : PyDict) :
    functions.map (fun j => Json.getField j "name") =
      [some (Json.str "get_result"), some (Json.str "send_result")] ∧
    handleEvent env s (.functionCallArgsDone "transfer_to_agent" c args) = (s, none) :=
  ⟨rfl, rfl⟩

/-- Claim C8: an event reaching the wildcard arm of the dispatch raises
nothing, changes nothing observable (no frame, no session message), and the
loop continues with the remaining events. -/
theorem C8_unknown_event_noop (env : Env) (s : HState) (rest : List Event) :
    handleEvent env s Event.unknown = (s, none) ∧
    runLoop env s (Event.unknown :: rest) = runLoop env s rest :=
  ⟨rfl, rfl⟩

/-- Claim C9: parsing the configuration message built at session start
recovers exactly the documented options: voice `alloy`, the fixed system
persona prompt as instructions, input audio format `pcm16`, and server-VAD
turn detection with threshold 0.6, silence duration 300 ms and prefix
padding 200 ms. -/
theorem C9_config_roundtrip :
    parseSessionConfig session_update_message =
      some ⟨"alloy", system_prompt, "pcm16", "server_vad", 0.6, 300, 200⟩ :=
  rfl

/-- Claim C10: forwarding an audio delta never propagates an exception —
`receive_audio` swallows everything, so the loop always continues past an
audio-delta event; with the user websocket not connected the underlying send
is skipped without error; by contrast, the stop-audio path re-raises the
transport failure to its caller. -/
theorem C10_audio_forwarding_never_raises (env : Env) (s : HState) (d : String)
    (rest : List Event) :
    (receive_audio env s d).2 = none ∧
    runLoop env s (Event.audioDelta d :: rest) =
      runLoop env (receive_audio env s d).1 rest ∧
    send_message_async disconnectedEnv s (Frame.audioData d) = (s, none) ∧
    (stop_audio_async sendFailEnv s).2 = some (.transportError "send_text failed") :=
  ⟨rfl, rfl, rfl, rfl⟩
